import Mathlib

/-!
Verification development for the artifact/data layer of the CodeHawk-C
analyzer (files chc/proof/CFunctionCallsiteSPO.py, chc/app/CTypeInfo.py,
chc/util/fileutil.py).  Python strings are embedded as lists of
characters; Python ints as Lean Int; fallible code returns Except.
-/

namespace CodeHawkC

/-- Embedding of a Python string as a list of characters. -/
abbrev PyStr := List Char

/-- Embedding of Python str.rjust(w): pad on the left with spaces up to
width w; strings already at least w characters long are returned
unchanged. -/
def py_rjust (s : PyStr) (w : Nat) : PyStr :=
  if w ≤ s.length then s else List.replicate (w - s.length) ' ' ++ s

theorem py_rjust_eq (s : PyStr) (w : Nat) :
    py_rjust s w = List.replicate (w - s.length) ' ' ++ s := by
  unfold py_rjust
  by_cases h : w ≤ s.length
  · rw [if_pos h, Nat.sub_eq_zero_of_le h, List.replicate_zero, List.nil_append]
  · rw [if_neg h]

/-- Auxiliary decimal printer: prepends the decimal digits of n to acc,
with explicit fuel (first argument) so that evaluation is structural;
mirrors the digit-by-digit construction used by Python str on ints. -/
def natReprAux : Nat → Nat → List Char → List Char
  | 0, _, acc => acc
  | fuel + 1, n, acc =>
      if n = 0 then acc
      else natReprAux fuel (n / 10) (Char.ofNat (48 + n % 10) :: acc)

/-- Embedding of Python str on a nonnegative int: decimal representation
with no sign or padding.  The fuel n + 1 dominates the number of digits
of n. -/
def natRepr (n : Nat) : PyStr :=
  if n = 0 then ['0'] else natReprAux (n + 1) n []

/-- Embedding of Python str on an int: decimal representation, with a
leading minus sign for negative values. -/
def intRepr (i : Int) : PyStr :=
  if i < 0 then '-' :: natRepr i.natAbs else natRepr i.toNat

theorem intRepr_ofNat (m : Nat) : intRepr (Int.ofNat m) = natRepr m := by
  unfold intRepr
  rw [if_neg (by exact Int.not_lt.mpr (Int.ofNat_nonneg m))]
  rfl

-- ---------------------------------------------------------------------------
-- Proof obligation model (chc/proof/CFunctionCallsiteSPO.py)
-- ---------------------------------------------------------------------------

/-- Modelled from the spec: a predicate reference renders to a textual
form (the class CPredicate with its str rendering is not under src;
spec section 4.3 requires the rendering to include the textual
form of the predicate). -/
structure CPredicate where
  render : PyStr

/-- Modelled from the spec: a location is a (file, line) pair (spec
section 3, Proof Obligation); only the line number is needed here. -/
structure CLocation where
  file : PyStr
  line : Int

/-- Modelled from the spec: the PO type record (CFunPOType of
chc/proof/CFunPODictionaryRecord.py is not under src).  Per the spec it
determines the po index, the location and the predicate of the PO, and
for callsite SPOs it carries the external id (apiid) of the interface
predicate of the callee. -/
structure CFunPOType where
  po_index : Int
  external_id : Int
  location : CLocation
  predicate : CPredicate

/-- Modelled from the spec: the per-file SPO collection that owns a
callsite SPO (CFunctionSPOs is not under src); only its identity is
needed, as a back-reference. -/
structure CFunctionSPOs where
  id : Nat

/-- Modelled from the spec: the set of facts a status decision relied
on (CProofDependencies of chc/proof/CFunctionPO.py is not under src). -/
structure CProofDependencies where
  ids : List Nat

/-- Modelled from the spec: an optional diagnostic attached to a PO
(CProofDiagnostic of chc/proof/CFunctionPO.py is not under src). -/
structure CProofDiagnostic where
  msgs : List PyStr

/-- Embedding of class CFunctionCallsiteSPO, including the attributes it
inherits from CFunctionPO (the base-class module is not under src; the
attributes po index, location, predicate, status, dependencies,
explanation and diagnostic are modelled from the spec, section 3). -/
structure CFunctionCallsiteSPO where
  csspos : CFunctionSPOs
  potype : CFunPOType
  status : PyStr
  deps : Option CProofDependencies
  expl : Option PyStr
  diag : Option CProofDiagnostic

/-- Embedding of CFunctionCallsiteSPO.__init__ with all arguments given
explicitly. -/
def CFunctionCallsiteSPO.init
    (csspos : CFunctionSPOs) (potype : CFunPOType) (status : PyStr)
    (deps : Option CProofDependencies) (expl : Option PyStr)
    (diag : Option CProofDiagnostic) : CFunctionCallsiteSPO :=
  ⟨csspos, potype, status, deps, expl, diag⟩

/-- Embedding of the call CFunctionCallsiteSPO(csspos, potype): the
Python constructor defaults status to "open", deps to None, expl to
None and diag to None. -/
def CFunctionCallsiteSPO.init_default
    (csspos : CFunctionSPOs) (potype : CFunPOType) : CFunctionCallsiteSPO :=
  CFunctionCallsiteSPO.init csspos potype ("open".data) none none none

/-- Embedding of the property CFunctionCallsiteSPO.apiid. -/
def CFunctionCallsiteSPO.apiid (spo : CFunctionCallsiteSPO) : Int :=
  spo.potype.external_id

/-- Embedding of the attribute po_index (in the source it is obtained
from the potype record through the base class). -/
def CFunctionCallsiteSPO.po_index (spo : CFunctionCallsiteSPO) : Int :=
  spo.potype.po_index

/-- Embedding of the attribute location. -/
def CFunctionCallsiteSPO.location (spo : CFunctionCallsiteSPO) : CLocation :=
  spo.potype.location

/-- Embedding of the attribute predicate. -/
def CFunctionCallsiteSPO.predicate (spo : CFunctionCallsiteSPO) : CPredicate :=
  spo.potype.predicate

/-- Embedding of CFunctionCallsiteSPO.__str__. -/
def CFunctionCallsiteSPO.toStr (spo : CFunctionCallsiteSPO) : PyStr :=
  py_rjust (intRepr spo.po_index) 4
    ++ " ".data
    ++ py_rjust (intRepr spo.apiid) 4
    ++ " ".data
    ++ py_rjust (intRepr spo.location.line) 4
    ++ "   ".data
    ++ spo.predicate.render
    ++ " (".data
    ++ spo.status
    ++ ")".data

/-- C1: the string rendering of a callsite supporting proof obligation
is stable and contains, in this order: the po index, the apiid (read
from the external id of the PO type), the line number of the location,
the textual form of the predicate, and the status in parentheses; the
fields are separated only by space padding and the fixed separators of
the format. -/
theorem spo_str_field_order (spo : CFunctionCallsiteSPO) :
    spo.toStr =
      List.replicate (4 - (intRepr spo.potype.po_index).length) ' '
        ++ intRepr spo.potype.po_index
        ++ (' ' :: List.replicate (4 - (intRepr spo.potype.external_id).length) ' ')
        ++ intRepr spo.potype.external_id
        ++ (' ' :: List.replicate (4 - (intRepr spo.potype.location.line).length) ' ')
        ++ intRepr spo.potype.location.line
        ++ [' ', ' ', ' ']
        ++ spo.potype.predicate.render
        ++ [' ', '(']
        ++ spo.status
        ++ [')']
      ∧ spo.apiid = spo.potype.external_id := by
  constructor
  · simp only [CFunctionCallsiteSPO.toStr, CFunctionCallsiteSPO.po_index,
      CFunctionCallsiteSPO.apiid, CFunctionCallsiteSPO.location,
      CFunctionCallsiteSPO.predicate, py_rjust_eq]
    simp [List.append_assoc]
  · rfl

/-- C2: a callsite SPO constructed without explicit status,
dependencies, explanation or diagnostic arguments starts with status
"open", no dependencies and no diagnostic. -/
theorem init_default_open (csspos : CFunctionSPOs) (potype : CFunPOType) :
    (CFunctionCallsiteSPO.init_default csspos potype).status = "open".data
      ∧ (CFunctionCallsiteSPO.init_default csspos potype).deps = none
      ∧ (CFunctionCallsiteSPO.init_default csspos potype).diag = none := by
  exact ⟨rfl, rfl, rfl⟩

-- ---------------------------------------------------------------------------
-- Path composition (chc/util/fileutil.py)
-- ---------------------------------------------------------------------------

/-- Last character of a Python string, if any (embeds the test
s.endswith on a one-character suffix used by os.path.join). -/
def lastChar? : PyStr → Option Char
  | [] => none
  | [c] => some c
  | _ :: c :: cs => lastChar? (c :: cs)

/-- Embedding of posix os.path.join on two components: if the second
component is absolute it is returned; if the first is empty or ends
with a separator the two are concatenated; otherwise a separator is
inserted between them. -/
def os_path_join (a b : PyStr) : PyStr :=
  if b.head? = some '/' then b
  else if a = [] ∨ lastChar? a = some '/' then a ++ b
  else a ++ '/' :: b

/-- Embedding of a Python sep.join(list of strings). -/
def py_join_sep (sep : Char) : List PyStr → PyStr
  | [] => []
  | [s] => s
  | s :: t :: rest => s ++ sep :: py_join_sep sep (t :: rest)

/-- Embedding of get_cchpath. -/
def get_cchpath (targetpath projectname : PyStr) : PyStr :=
  os_path_join targetpath (projectname ++ ".cch".data)

/-- Embedding of get_analysisresults_path. -/
def get_analysisresults_path (targetpath projectname : PyStr) : PyStr :=
  os_path_join (get_cchpath targetpath projectname) ("a".data)

/-- Embedding of get_cfile_filepath. -/
def get_cfile_filepath (targetpath projectname : PyStr)
    (cfilepath : Option PyStr) (cfilename : PyStr) : PyStr :=
  match cfilepath with
  | none =>
      os_path_join (get_analysisresults_path targetpath projectname) cfilename
  | some p =>
      os_path_join
        (os_path_join (get_analysisresults_path targetpath projectname) p)
        cfilename

/-- Embedding of get_cfile_cfile. -/
def get_cfile_cfile (targetpath projectname : PyStr)
    (cfilepath : Option PyStr) (cfilename : PyStr) : PyStr :=
  os_path_join (get_cfile_filepath targetpath projectname cfilepath cfilename)
    (cfilename ++ "_cfile.xml".data)

/-- Embedding of get_cfile_interface_dictionaryname. -/
def get_cfile_interface_dictionaryname (targetpath projectname : PyStr)
    (cfilepath : Option PyStr) (cfilename : PyStr) : PyStr :=
  os_path_join (get_cfile_filepath targetpath projectname cfilepath cfilename)
    (cfilename ++ "_ixf.xml".data)

/-- Embedding of get_cxreffile_filename. -/
def get_cxreffile_filename (targetpath projectname : PyStr)
    (cfilepath : Option PyStr) (cfilename : PyStr) : PyStr :=
  os_path_join (get_cfile_filepath targetpath projectname cfilepath cfilename)
    (cfilename ++ "_gxrefs.xml".data)

/-- Embedding of get_callgraph_filename. -/
def get_callgraph_filename (targetpath projectname : PyStr) : PyStr :=
  os_path_join (get_analysisresults_path targetpath projectname)
    ("callgraph.json".data)

/-- Embedding of get_fn_composite. -/
def get_fn_composite (cfilename fnname ext : PyStr) : PyStr :=
  py_join_sep '_' [cfilename, fnname, ext] ++ ".xml".data

/-- Embedding of get_cfile_fnspath. -/
def get_cfile_fnspath (targetpath projectname : PyStr)
    (cfilepath : Option PyStr) (cfilename : PyStr) : PyStr :=
  os_path_join (get_cfile_filepath targetpath projectname cfilepath cfilename)
    ("functions".data)

/-- Embedding of get_cfile_fnpath. -/
def get_cfile_fnpath (targetpath projectname : PyStr)
    (cfilepath : Option PyStr) (cfilename fnname : PyStr) : PyStr :=
  os_path_join (get_cfile_fnspath targetpath projectname cfilepath cfilename)
    fnname

/-- Embedding of get_cfun_filename. -/
def get_cfun_filename (targetpath projectname : PyStr)
    (cfilepath : Option PyStr) (cfilename fnname : PyStr) : PyStr :=
  os_path_join
    (get_cfile_fnpath targetpath projectname cfilepath cfilename fnname)
    (get_fn_composite cfilename fnname ("cfun".data))

/-- Embedding of get_pod_filename. -/
def get_pod_filename (targetpath projectname : PyStr)
    (cfilepath : Option PyStr) (cfilename fnname : PyStr) : PyStr :=
  os_path_join
    (get_cfile_fnpath targetpath projectname cfilepath cfilename fnname)
    (get_fn_composite cfilename fnname ("pod".data))

/-- Embedding of get_spo_filename. -/
def get_spo_filename (targetpath projectname : PyStr)
    (cfilepath : Option PyStr) (cfilename fnname : PyStr) : PyStr :=
  os_path_join
    (get_cfile_fnpath targetpath projectname cfilepath cfilename fnname)
    (get_fn_composite cfilename fnname ("spo".data))

theorem lastChar?_cons_ne (c : Char) (l : PyStr) (h : l ≠ []) :
    lastChar? (c :: l) = lastChar? l := by
  cases l with
  | nil => exact absurd rfl h
  | cons d ds => rfl

theorem lastChar?_append (s t : PyStr) (h : t ≠ []) :
    lastChar? (s ++ t) = lastChar? t := by
  induction s with
  | nil => rfl
  | cons c cs ih =>
      rw [List.cons_append, lastChar?_cons_ne _ _ (by simp [h]), ih]

theorem head?_append_ne (s t : PyStr) (hs : s.head? ≠ some '/')
    (ht : t.head? ≠ some '/') : (s ++ t).head? ≠ some '/' := by
  cases s with
  | nil => simpa using ht
  | cons c cs => simpa using hs

theorem os_path_join_eq (a b : PyStr) (ha : a ≠ [])
    (hla : lastChar? a ≠ some '/') (hb : b.head? ≠ some '/') :
    os_path_join a b = a ++ '/' :: b := by
  unfold os_path_join
  rw [if_neg hb, if_neg (by push_neg; exact ⟨ha, hla⟩)]

/-- One step of the join chain: under the usual well-formedness of path
components the join inserts exactly one separator, and the result is a
nonempty path that does not end in a separator. -/
theorem join_step (a b : PyStr) (ha : a ≠ []) (hla : lastChar? a ≠ some '/')
    (hb : b.head? ≠ some '/') (hbne : b ≠ []) (hlb : lastChar? b ≠ some '/') :
    os_path_join a b = a ++ '/' :: b ∧ (a ++ '/' :: b) ≠ []
      ∧ lastChar? (a ++ '/' :: b) ≠ some '/' := by
  refine ⟨os_path_join_eq a b ha hla hb, by simp, ?_⟩
  rw [lastChar?_append _ _ (by simp), lastChar?_cons_ne _ _ hbne]
  exact hlb

theorem append_ne_nil_right (s t : PyStr) (ht : t ≠ []) : s ++ t ≠ [] := by
  intro h
  exact ht (List.append_eq_nil.mp h).2

theorem lastChar?_append_ne (s t : PyStr) (ht : t ≠ [])
    (h : lastChar? t ≠ some '/') : lastChar? (s ++ t) ≠ some '/' := by
  rw [lastChar?_append s t ht]
  exact h

/-- C10: the SPO artifact path is a fixed composition of its
identifying components: for well-formed path components (nonempty, not
starting and not ending with a separator), get_spo_filename returns
tp/pn.cch/a/fp/x/functions/fn/x_fn_spo.xml, where the fp segment is
present exactly when the optional file path is given. -/
theorem get_spo_filename_composition (tp pn x fn : PyStr)
    (htp : tp ≠ []) (htp2 : lastChar? tp ≠ some '/')
    (hpn : pn.head? ≠ some '/')
    (hx : x ≠ []) (hx1 : x.head? ≠ some '/') (hx2 : lastChar? x ≠ some '/')
    (hfn : fn ≠ []) (hfn1 : fn.head? ≠ some '/')
    (hfn2 : lastChar? fn ≠ some '/') :
    get_spo_filename tp pn none x fn
        = tp ++ '/' :: (pn ++ ".cch".data) ++ '/' :: "a".data ++ '/' :: x
            ++ '/' :: "functions".data ++ '/' :: fn
            ++ '/' :: (x ++ '_' :: (fn ++ '_' :: "spo".data) ++ ".xml".data)
      ∧ ∀ fp : PyStr, fp ≠ [] → fp.head? ≠ some '/' →
          lastChar? fp ≠ some '/' →
          get_spo_filename tp pn (some fp) x fn
            = tp ++ '/' :: (pn ++ ".cch".data) ++ '/' :: "a".data ++ '/' :: fp
                ++ '/' :: x ++ '/' :: "functions".data ++ '/' :: fn
                ++ '/' :: (x ++ '_' :: (fn ++ '_' :: "spo".data)
                    ++ ".xml".data) := by
  have hcch := join_step tp (pn ++ ".cch".data) htp htp2
    (head?_append_ne _ _ hpn (by decide))
    (append_ne_nil_right _ _ (by decide))
    (lastChar?_append_ne _ _ (by decide) (by decide))
  have h2 := join_step _ ("a".data) hcch.2.1 hcch.2.2
    (by decide) (by decide) (by decide)
  have hcomp_ne : get_fn_composite x fn ("spo".data) ≠ [] := by
    unfold get_fn_composite
    exact append_ne_nil_right _ _ (by decide)
  have hcomp_hd : (get_fn_composite x fn ("spo".data)).head? ≠ some '/' := by
    unfold get_fn_composite py_join_sep
    exact head?_append_ne _ _ (head?_append_ne _ _ hx1 (by simp)) (by decide)
  have hcomp_last : lastChar? (get_fn_composite x fn ("spo".data))
      ≠ some '/' := by
    unfold get_fn_composite
    exact lastChar?_append_ne _ _ (by decide) (by decide)
  constructor
  · have h3 := join_step _ x h2.2.1 h2.2.2 hx1 hx hx2
    have h4 := join_step _ ("functions".data) h3.2.1 h3.2.2
      (by decide) (by decide) (by decide)
    have h5 := join_step _ fn h4.2.1 h4.2.2 hfn1 hfn hfn2
    have h6 := join_step _ (get_fn_composite x fn ("spo".data))
      h5.2.1 h5.2.2 hcomp_hd hcomp_ne hcomp_last
    simp only [get_spo_filename, get_cfile_fnpath, get_cfile_fnspath,
      get_cfile_filepath, get_analysisresults_path, get_cchpath]
    rw [hcch.1, h2.1, h3.1, h4.1, h5.1, h6.1]
    simp [get_fn_composite, py_join_sep, List.append_assoc]
  · intro fp hfp hfp1 hfp2
    have h3 := join_step _ fp h2.2.1 h2.2.2 hfp1 hfp hfp2
    have h3x := join_step _ x h3.2.1 h3.2.2 hx1 hx hx2
    have h4 := join_step _ ("functions".data) h3x.2.1 h3x.2.2
      (by decide) (by decide) (by decide)
    have h5 := join_step _ fn h4.2.1 h4.2.2 hfn1 hfn hfn2
    have h6 := join_step _ (get_fn_composite x fn ("spo".data))
      h5.2.1 h5.2.2 hcomp_hd hcomp_ne hcomp_last
    simp only [get_spo_filename, get_cfile_fnpath, get_cfile_fnspath,
      get_cfile_filepath, get_analysisresults_path, get_cchpath]
    rw [hcch.1, h2.1, h3.1, h3x.1, h4.1, h5.1, h6.1]
    simp [get_fn_composite, py_join_sep, List.append_assoc]

/-- Witness for C10 at concrete components. -/
theorem get_spo_filename_composition_witness :
    get_spo_filename ("t".data) ("p".data) none ("x".data) ("f".data)
        = "t/p.cch/a/x/functions/f/x_f_spo.xml".data
      ∧ get_spo_filename ("t".data) ("p".data) (some ("d".data)) ("x".data)
          ("f".data)
        = "t/p.cch/a/d/x/functions/f/x_f_spo.xml".data := by
  have h := get_spo_filename_composition ("t".data) ("p".data) ("x".data)
    ("f".data) (by decide) (by decide) (by decide) (by decide) (by decide)
    (by decide) (by decide) (by decide) (by decide)
  refine ⟨?_, ?_⟩
  · rw [h.1]; decide
  · rw [h.2 ("d".data) (by decide) (by decide) (by decide)]; decide

-- ---------------------------------------------------------------------------
-- File access and typed errors (chc/util/fileutil.py)
-- ---------------------------------------------------------------------------

/-- The typed errors of fileutil needed here, one constructor per error
class, each carrying what the Python constructor stores. -/
inductive CHCError where
  | fileNotFound (filename : PyStr)
  | xmlParse (filename : PyStr) (errorcode : Int) (position : Int × Int)
  | dirNotFound (dirname : PyStr)
  | shortcutName (name : PyStr)
  | valueError (literal : PyStr)
deriving DecidableEq

/-- An XML element: a tag and child elements (attributes are not needed
by the claims settled here). -/
inductive XmlElement where
  | elem (tag : PyStr) (children : List XmlElement)

def XmlElement.tag : XmlElement → PyStr
  | .elem t _ => t

def XmlElement.children : XmlElement → List XmlElement
  | .elem _ cs => cs

/-- Embedding of ElementTree Element.find: first direct child whose tag
matches. -/
def XmlElement.find (e : XmlElement) (name : PyStr) : Option XmlElement :=
  e.children.find? (fun c => c.tag == name)

/-- The data of an ElementTree ParseError: error code and (line, column)
position. -/
structure XmlParseFailure where
  code : Int
  position : Int × Int

/-- A snapshot of the file system as seen by fileutil: for each path,
none when no file exists there, and otherwise the outcome of XML
parsing of its content (the parsed root element, or a parse failure).
This collapses the isfile test and the subsequent parse of the same
file into one consistent view. -/
structure FileSystem where
  files : PyStr → Option (Except XmlParseFailure XmlElement)

/-- Embedding of os.path.isfile against the snapshot. -/
def os_path_isfile (fs : FileSystem) (filename : PyStr) : Bool :=
  (fs.files filename).isSome

/-- Embedding of get_xnode: parse the file and return the requested
root element; a missing file raises CHCFileNotFoundError when show is
true and yields None otherwise; a parse failure raises
CHCXmlParseError with the filename, error code and position. -/
def get_xnode (fs : FileSystem) (filename rootnode desc : PyStr)
    (show_ : Bool) : Except CHCError (Option XmlElement) :=
  match fs.files filename with
  | some (Except.ok root) => Except.ok (root.find rootnode)
  | some (Except.error e) =>
      Except.error (CHCError.xmlParse filename e.code e.position)
  | none =>
      if show_ then Except.error (CHCError.fileNotFound filename)
      else Except.ok none

/-- C4: with show=True, get_xnode reports a missing file as a
CHCFileNotFoundError carrying the filename, a malformed file as a
CHCXmlParseError carrying the filename, error code and parse position,
and otherwise returns the requested root element. -/
theorem get_xnode_reporting (fs : FileSystem) (filename rootnode desc : PyStr) :
    (fs.files filename = none →
      get_xnode fs filename rootnode desc true
        = Except.error (CHCError.fileNotFound filename))
      ∧ (∀ e : XmlParseFailure,
          fs.files filename = some (Except.error e) →
          get_xnode fs filename rootnode desc true
            = Except.error (CHCError.xmlParse filename e.code e.position))
      ∧ (∀ root : XmlElement,
          fs.files filename = some (Except.ok root) →
          get_xnode fs filename rootnode desc true
            = Except.ok (root.find rootnode)) := by
  refine ⟨fun h => ?_, fun e h => ?_, fun root h => ?_⟩
  · simp [get_xnode, h]
  · simp [get_xnode, h]
  · simp [get_xnode, h]

/-- A sample parsed document with one child element named c-file. -/
def sampleRoot : XmlElement :=
  XmlElement.elem ("hdr".data) [XmlElement.elem ("c-file".data) []]

/-- A file system holding one well-formed file f.xml. -/
def fsWithOk : FileSystem :=
  ⟨fun f => if f = "f.xml".data then some (Except.ok sampleRoot) else none⟩

/-- A file system holding one malformed file f.xml. -/
def fsWithBad : FileSystem :=
  ⟨fun f =>
    if f = "f.xml".data then some (Except.error ⟨3, (7, 2)⟩) else none⟩

/-- The empty file system. -/
def fsEmpty : FileSystem := ⟨fun _ => none⟩

/-- Witness for C4 on the three kinds of file system. -/
theorem get_xnode_reporting_witness :
    get_xnode fsEmpty ("f.xml".data) ("c-file".data) ("d".data) true
        = Except.error (CHCError.fileNotFound ("f.xml".data))
      ∧ get_xnode fsWithBad ("f.xml".data) ("c-file".data) ("d".data) true
        = Except.error (CHCError.xmlParse ("f.xml".data) 3 (7, 2))
      ∧ get_xnode fsWithOk ("f.xml".data) ("c-file".data) ("d".data) true
        = Except.ok (some (XmlElement.elem ("c-file".data) [])) := by
  refine ⟨(get_xnode_reporting fsEmpty _ _ ("d".data)).1 rfl, ?_, ?_⟩
  · exact (get_xnode_reporting fsWithBad _ _ ("d".data)).2.1 ⟨3, (7, 2)⟩ rfl
  · rw [(get_xnode_reporting fsWithOk ("f.xml".data) ("c-file".data)
      ("d".data)).2.2 sampleRoot rfl]
    rfl

-- ---------------------------------------------------------------------------
-- Optional artifacts (C5)
-- ---------------------------------------------------------------------------

/-- Embedding of get_cxreffile_xnode: reads the cross-reference file
with show=False. -/
def get_cxreffile_xnode (fs : FileSystem) (targetpath projectname : PyStr)
    (cfilepath : Option PyStr) (cfilename : PyStr) :
    Except CHCError (Option XmlElement) :=
  get_xnode fs
    (get_cxreffile_filename targetpath projectname cfilepath cfilename)
    ("global-xrefs".data) ("File with global cross references".data) false

/-- Embedding of get_candidate_contracts: reads path/cfilename_cc.xml
with show=True. -/
def get_candidate_contracts (fs : FileSystem) (path cfilename : PyStr) :
    Except CHCError (Option XmlElement) :=
  get_xnode fs (os_path_join path (cfilename ++ "_cc.xml".data))
    ("cfile".data) ("Contract file".data) true

/-- A JSON value as produced by json.load. -/
inductive Json where
  | obj (entries : List (PyStr × Json))
  | arr (items : List Json)
  | str (s : PyStr)
  | num (n : Int)
  | boolean (b : Bool)
  | null

/-- A snapshot of the JSON files on disk: none when the file does not
exist, otherwise the outcome of json.load on its content (a value, or
the message of the ValueError raised on malformed input). -/
structure JsonFS where
  files : PyStr → Option (Except PyStr Json)

/-- Embedding of load_callgraph: returns the parsed dictionary when the
callgraph file exists, and the empty dictionary when it does not; a
parse failure propagates. -/
def load_callgraph (jfs : JsonFS) (targetpath projectname : PyStr) :
    Except PyStr Json :=
  match jfs.files (get_callgraph_filename targetpath projectname) with
  | some (Except.ok d) => Except.ok d
  | some (Except.error e) => Except.error e
  | none => Except.ok (Json.obj [])

/-- The empty JSON file system. -/
def jfsEmpty : JsonFS := ⟨fun _ => none⟩

/-- Counterexample to C5: on a file system with no files at all,
get_candidate_contracts does not return an empty result; it raises
CHCFileNotFoundError for the candidate-contracts file, because it calls
get_xnode with show=True. -/
theorem get_candidate_contracts_raises :
    fsEmpty.files (os_path_join ("p".data) ("x".data ++ "_cc.xml".data)) = none
      ∧ get_candidate_contracts fsEmpty ("p".data) ("x".data)
          = Except.error (CHCError.fileNotFound ("p/x_cc.xml".data))
      ∧ get_candidate_contracts fsEmpty ("p".data) ("x".data)
          ≠ Except.ok none := by
  refine ⟨rfl, rfl, ?_⟩
  intro h
  exact Except.noConfusion (h.symm.trans rfl)

/-- C5 as amended: cross-reference files and the callgraph default to
empty when absent (None and the empty mapping respectively), but
get_candidate_contracts raises CHCFileNotFoundError when the
candidate-contracts file is absent, since it asks get_xnode to report
missing files. -/
theorem optional_artifacts_default (fs : FileSystem) (jfs : JsonFS)
    (targetpath projectname cfilename path cfn : PyStr)
    (cfilepath : Option PyStr) :
    (fs.files (get_cxreffile_filename targetpath projectname cfilepath
        cfilename) = none →
      get_cxreffile_xnode fs targetpath projectname cfilepath cfilename
        = Except.ok none)
      ∧ (jfs.files (get_callgraph_filename targetpath projectname) = none →
          load_callgraph jfs targetpath projectname
            = Except.ok (Json.obj []))
      ∧ (fs.files (os_path_join path (cfn ++ "_cc.xml".data)) = none →
          get_candidate_contracts fs path cfn
            = Except.error (CHCError.fileNotFound
                (os_path_join path (cfn ++ "_cc.xml".data)))) := by
  refine ⟨fun h => ?_, fun h => ?_, fun h => ?_⟩
  · simp [get_cxreffile_xnode, get_xnode, h]
  · simp [load_callgraph, h]
  · simp [get_candidate_contracts, get_xnode, h]

/-- Witness for the amended C5 on empty file systems. -/
theorem optional_artifacts_default_witness :
    get_cxreffile_xnode fsEmpty ("t".data) ("p".data) none ("x".data)
        = Except.ok none
      ∧ load_callgraph jfsEmpty ("t".data) ("p".data)
        = Except.ok (Json.obj [])
      ∧ get_candidate_contracts fsEmpty ("p".data) ("x".data)
        = Except.error (CHCError.fileNotFound
            (os_path_join ("p".data) ("x".data ++ "_cc.xml".data))) := by
  have h := optional_artifacts_default fsEmpty jfsEmpty ("t".data) ("p".data)
    ("x".data) ("p".data) ("x".data) none
  exact ⟨h.1 rfl, h.2.1 rfl, h.2.2 rfl⟩

-- ---------------------------------------------------------------------------
-- Batch result checking (C7)
-- ---------------------------------------------------------------------------

/-- Embedding of Python str of a pair of ints, as printed inside the
CHCXmlParseError message. -/
def py_tuple2_str (p : Int × Int) : PyStr :=
  "(".data ++ intRepr p.1 ++ ", ".data ++ intRepr p.2 ++ ")".data

/-- Embedding of str(e) on the typed errors (the __str__ methods of the
error classes; CHCFileNotFoundError and the simple classes print the
message stored by their constructor). -/
def chc_error_str : CHCError → PyStr
  | CHCError.fileNotFound f => "File ".data ++ f ++ " not found".data
  | CHCError.xmlParse f c p =>
      "XML parse error in ".data ++ f ++ " (errorcode: ".data ++ intRepr c
        ++ ") at position  ".data ++ py_tuple2_str p
  | CHCError.dirNotFound d => "Directory ".data ++ d ++ " not found".data
  | CHCError.shortcutName n =>
      "Name: ".data ++ n ++ " is not a valid short-cut name".data
  | CHCError.valueError s =>
      "invalid literal for int() with base 10: ".data ++ s

/-- Embedding of check_cfile_results: when the results file exists,
run get_xnode and catch exactly CHCXmlParseError, returning its printed
form; a missing file yields the not-found message instead of an
exception. -/
def check_cfile_results (fs : FileSystem) (targetpath projectname : PyStr)
    (cfilepath : Option PyStr) (cfilename : PyStr) :
    Except CHCError (Option PyStr) :=
  let filename := get_cfile_cfile targetpath projectname cfilepath cfilename
  if os_path_isfile fs filename then
    match get_xnode fs filename ("c-file".data) ("C source file".data) true with
    | Except.error (CHCError.xmlParse f c p) =>
        Except.ok (some (chc_error_str (CHCError.xmlParse f c p)))
    | Except.error e => Except.error e
    | Except.ok _ => Except.ok none
  else
    Except.ok (some ("Results file ".data ++ filename
      ++ " not found found for c-file ".data ++ cfilename))

/-- Embedding of check_cfun_results: first check the owning file, then
the function file, with the same catch of CHCXmlParseError only. -/
def check_cfun_results (fs : FileSystem) (targetpath projectname : PyStr)
    (cfilepath : Option PyStr) (cfilename fnname : PyStr) :
    Except CHCError (Option PyStr) :=
  match check_cfile_results fs targetpath projectname cfilepath cfilename with
  | Except.error e => Except.error e
  | Except.ok (some r) => Except.ok (some r)
  | Except.ok none =>
    let filename :=
      get_cfun_filename targetpath projectname cfilepath cfilename fnname
    if os_path_isfile fs filename then
      match get_xnode fs filename ("function".data)
          ("C source function file".data) true with
      | Except.error (CHCError.xmlParse f c p) =>
          Except.ok (some (chc_error_str (CHCError.xmlParse f c p)))
      | Except.error e => Except.error e
      | Except.ok _ => Except.ok none
    else
      Except.ok (some ("Results file ".data ++ filename
        ++ " not found for function ".data ++ fnname))

/-- Case analysis of check_cfile_results over the state of the results
file. -/
theorem check_cfile_results_eq (fs : FileSystem)
    (targetpath projectname : PyStr) (cfilepath : Option PyStr)
    (cfilename : PyStr) :
    check_cfile_results fs targetpath projectname cfilepath cfilename
      = match fs.files (get_cfile_cfile targetpath projectname cfilepath
          cfilename) with
        | some (Except.ok _) => Except.ok none
        | some (Except.error e) =>
            Except.ok (some (chc_error_str (CHCError.xmlParse
              (get_cfile_cfile targetpath projectname cfilepath cfilename)
              e.code e.position)))
        | none =>
            Except.ok (some ("Results file ".data
              ++ get_cfile_cfile targetpath projectname cfilepath cfilename
              ++ " not found found for c-file ".data ++ cfilename)) := by
  cases h : fs.files (get_cfile_cfile targetpath projectname cfilepath
      cfilename) with
  | none => simp [check_cfile_results, os_path_isfile, h]
  | some r =>
      cases r with
      | ok root => simp [check_cfile_results, os_path_isfile, get_xnode, h]
      | error e => simp [check_cfile_results, os_path_isfile, get_xnode, h]

/-- Case analysis of check_cfun_results over the state of the two
results files. -/
theorem check_cfun_results_eq (fs : FileSystem)
    (targetpath projectname : PyStr) (cfilepath : Option PyStr)
    (cfilename fnname : PyStr) :
    check_cfun_results fs targetpath projectname cfilepath cfilename fnname
      = match fs.files (get_cfile_cfile targetpath projectname cfilepath
          cfilename) with
        | some (Except.ok _) =>
            (match fs.files (get_cfun_filename targetpath projectname
                cfilepath cfilename fnname) with
            | some (Except.ok _) => Except.ok none
            | some (Except.error e) =>
                Except.ok (some (chc_error_str (CHCError.xmlParse
                  (get_cfun_filename targetpath projectname cfilepath
                    cfilename fnname) e.code e.position)))
            | none =>
                Except.ok (some ("Results file ".data
                  ++ get_cfun_filename targetpath projectname cfilepath
                      cfilename fnname
                  ++ " not found for function ".data ++ fnname)))
        | some (Except.error e) =>
            Except.ok (some (chc_error_str (CHCError.xmlParse
              (get_cfile_cfile targetpath projectname cfilepath cfilename)
              e.code e.position)))
        | none =>
            Except.ok (some ("Results file ".data
              ++ get_cfile_cfile targetpath projectname cfilepath cfilename
              ++ " not found found for c-file ".data ++ cfilename)) := by
  unfold check_cfun_results
  rw [check_cfile_results_eq]
  cases h1 : fs.files (get_cfile_cfile targetpath projectname cfilepath
      cfilename) with
  | none => simp
  | some r =>
      cases r with
      | error e => simp
      | ok root =>
          cases h2 : fs.files (get_cfun_filename targetpath projectname
              cfilepath cfilename fnname) with
          | none => simp [os_path_isfile, h2]
          | some s =>
              cases s with
              | ok root2 => simp [os_path_isfile, get_xnode, h2]
              | error e2 => simp [os_path_isfile, get_xnode, h2]

/-- C7: per-unit result checking never propagates a missing-file or
parse failure as an exception: both checkers always return normally
(a descriptive string or None), and they return None exactly when the
files they check exist and parse. -/
theorem check_results_no_exception (fs : FileSystem)
    (targetpath projectname cfilename fnname : PyStr)
    (cfilepath : Option PyStr) :
    (∃ r, check_cfile_results fs targetpath projectname cfilepath cfilename
        = Except.ok r)
      ∧ (∃ r, check_cfun_results fs targetpath projectname cfilepath
          cfilename fnname = Except.ok r)
      ∧ (check_cfile_results fs targetpath projectname cfilepath cfilename
            = Except.ok none
          ↔ ∃ root, fs.files (get_cfile_cfile targetpath projectname
              cfilepath cfilename) = some (Except.ok root))
      ∧ (check_cfun_results fs targetpath projectname cfilepath cfilename
            fnname = Except.ok none
          ↔ (∃ root, fs.files (get_cfile_cfile targetpath projectname
                cfilepath cfilename) = some (Except.ok root))
            ∧ (∃ root, fs.files (get_cfun_filename targetpath projectname
                cfilepath cfilename fnname) = some (Except.ok root))) := by
  refine ⟨?_, ?_, ?_, ?_⟩
  · rw [check_cfile_results_eq]
    cases h : fs.files (get_cfile_cfile targetpath projectname cfilepath
        cfilename) with
    | none => exact ⟨_, rfl⟩
    | some r => cases r with
      | ok root => exact ⟨_, rfl⟩
      | error e => exact ⟨_, rfl⟩
  · rw [check_cfun_results_eq]
    cases h1 : fs.files (get_cfile_cfile targetpath projectname cfilepath
        cfilename) with
    | none => exact ⟨_, rfl⟩
    | some r => cases r with
      | error e => exact ⟨_, rfl⟩
      | ok root =>
          cases h2 : fs.files (get_cfun_filename targetpath projectname
              cfilepath cfilename fnname) with
          | none => exact ⟨_, rfl⟩
          | some s => cases s with
            | ok root2 => exact ⟨_, rfl⟩
            | error e2 => exact ⟨_, rfl⟩
  · rw [check_cfile_results_eq]
    cases h : fs.files (get_cfile_cfile targetpath projectname cfilepath
        cfilename) with
    | none => simp
    | some r => cases r with
      | ok root => simp
      | error e => simp
  · rw [check_cfun_results_eq]
    cases h1 : fs.files (get_cfile_cfile targetpath projectname cfilepath
        cfilename) with
    | none => simp
    | some r => cases r with
      | error e => simp
      | ok root =>
          cases h2 : fs.files (get_cfun_filename targetpath projectname
              cfilepath cfilename fnname) with
          | none => simp
          | some s => cases s with
            | ok root2 => simp
            | error e2 => simp

-- ---------------------------------------------------------------------------
-- Saving of proof obligation and dictionary files (C3)
-- ---------------------------------------------------------------------------

/-- One observable file-system operation performed by a save
function. -/
inductive FileOp where
  | openW (path : PyStr)
  | write (path : PyStr) (content : PyStr)
  | close (path : PyStr)
  | rename (src dst : PyStr)
deriving DecidableEq

/-- Modelled from the spec: chc/util/xmlutil.py (imported as UX) is not
under src; get_xml_header builds the enclosing header element for a
document and doc_to_pretty serializes a document to text.  Both are
kept abstract as parameters. -/
structure XmlUtil where
  get_xml_header : PyStr → PyStr → XmlElement
  doc_to_pretty : XmlElement → PyStr

/-- Embedding of Element.append: adds a child at the end. -/
def xml_element_append (parent child : XmlElement) : XmlElement :=
  match parent with
  | XmlElement.elem t cs => XmlElement.elem t (cs ++ [child])

/-- Embedding of save_spo_file as its trace of file operations: the
target file is opened for writing, the pretty-printed document is
written, and the file is closed. -/
def save_spo_file_trace (ux : XmlUtil) (targetpath projectname : PyStr)
    (cfilepath : Option PyStr) (cfilename fnname : PyStr)
    (cnode : XmlElement) : List FileOp :=
  let filename :=
    get_spo_filename targetpath projectname cfilepath cfilename fnname
  let header :=
    xml_element_append (ux.get_xml_header cfilename ("spos".data)) cnode
  [FileOp.openW filename,
   FileOp.write filename (ux.doc_to_pretty header),
   FileOp.close filename]

/-- Embedding of save_pod_file as its trace of file operations. -/
def save_pod_file_trace (ux : XmlUtil) (targetpath projectname : PyStr)
    (cfilepath : Option PyStr) (cfilename fnname : PyStr)
    (cnode : XmlElement) : List FileOp :=
  let filename :=
    get_pod_filename targetpath projectname cfilepath cfilename fnname
  let header :=
    xml_element_append (ux.get_xml_header filename ("pod".data)) cnode
  [FileOp.openW filename,
   FileOp.write filename (ux.doc_to_pretty header),
   FileOp.close filename]

/-- Embedding of save_cfile_interface_dictionary as its trace of file
operations. -/
def save_cfile_interface_dictionary_trace (ux : XmlUtil)
    (targetpath projectname : PyStr) (cfilepath : Option PyStr)
    (cfilename : PyStr) (xnode : XmlElement) : List FileOp :=
  let filename := get_cfile_interface_dictionaryname targetpath projectname
    cfilepath cfilename
  let header :=
    xml_element_append (ux.get_xml_header filename ("interfacedictionary".data))
      xnode
  [FileOp.openW filename,
   FileOp.write filename (ux.doc_to_pretty header),
   FileOp.close filename]

/-- The write-then-rename discipline for a target file: the target path
is never opened or written directly, and the target only comes into
being through a rename from some other path. -/
def atomic_write_discipline (target : PyStr) (ops : List FileOp) : Bool :=
  (ops.all (fun op =>
    match op with
    | FileOp.openW p => !(p == target)
    | FileOp.write p _ => !(p == target)
    | _ => true))
  && (ops.any (fun op =>
    match op with
    | FileOp.rename _ dst => dst == target
    | _ => false))

/-- A concrete XmlUtil instance for witnesses. -/
def uxSample : XmlUtil :=
  ⟨fun name tag => XmlElement.elem tag [XmlElement.elem name []],
   fun _ => "doc".data⟩

/-- Counterexample to C3: at concrete inputs, none of the three save
functions follows the write-to-temporary-then-rename discipline for its
target file; each opens and writes the target path directly. -/
theorem save_files_not_atomic_counterexample :
    atomic_write_discipline
        (get_spo_filename ("t".data) ("p".data) none ("x".data) ("f".data))
        (save_spo_file_trace uxSample ("t".data) ("p".data) none ("x".data)
          ("f".data) (XmlElement.elem ("spos".data) [])) = false
      ∧ atomic_write_discipline
          (get_pod_filename ("t".data) ("p".data) none ("x".data) ("f".data))
          (save_pod_file_trace uxSample ("t".data) ("p".data) none ("x".data)
            ("f".data) (XmlElement.elem ("pod".data) [])) = false
      ∧ atomic_write_discipline
          (get_cfile_interface_dictionaryname ("t".data) ("p".data) none
            ("x".data))
          (save_cfile_interface_dictionary_trace uxSample ("t".data)
            ("p".data) none ("x".data)
            (XmlElement.elem ("interface-dictionary".data) [])) = false := by
  refine ⟨?_, ?_, ?_⟩ <;> rfl

/-- C3 as amended: save_spo_file, save_pod_file and
save_cfile_interface_dictionary open their target file directly and
write the whole serialized document into it before closing; no
temporary location and no rename is involved, so the write-then-rename
discipline does not hold for any of them. -/
theorem save_files_write_directly (ux : XmlUtil)
    (targetpath projectname : PyStr) (cfilepath : Option PyStr)
    (cfilename fnname : PyStr) (cnode xnode : XmlElement) :
    (save_spo_file_trace ux targetpath projectname cfilepath cfilename
        fnname cnode
      = [FileOp.openW (get_spo_filename targetpath projectname cfilepath
            cfilename fnname),
         FileOp.write (get_spo_filename targetpath projectname cfilepath
            cfilename fnname)
           (ux.doc_to_pretty (xml_element_append
             (ux.get_xml_header cfilename ("spos".data)) cnode)),
         FileOp.close (get_spo_filename targetpath projectname cfilepath
            cfilename fnname)])
      ∧ (save_pod_file_trace ux targetpath projectname cfilepath cfilename
          fnname cnode
        = [FileOp.openW (get_pod_filename targetpath projectname cfilepath
              cfilename fnname),
           FileOp.write (get_pod_filename targetpath projectname cfilepath
              cfilename fnname)
             (ux.doc_to_pretty (xml_element_append
               (ux.get_xml_header (get_pod_filename targetpath projectname
                 cfilepath cfilename fnname) ("pod".data)) cnode)),
           FileOp.close (get_pod_filename targetpath projectname cfilepath
              cfilename fnname)])
      ∧ (save_cfile_interface_dictionary_trace ux targetpath projectname
          cfilepath cfilename xnode
        = [FileOp.openW (get_cfile_interface_dictionaryname targetpath
              projectname cfilepath cfilename),
           FileOp.write (get_cfile_interface_dictionaryname targetpath
              projectname cfilepath cfilename)
             (ux.doc_to_pretty (xml_element_append
               (ux.get_xml_header (get_cfile_interface_dictionaryname
                 targetpath projectname cfilepath cfilename)
                 ("interfacedictionary".data)) xnode)),
           FileOp.close (get_cfile_interface_dictionaryname targetpath
              projectname cfilepath cfilename)])
      ∧ atomic_write_discipline
          (get_spo_filename targetpath projectname cfilepath cfilename fnname)
          (save_spo_file_trace ux targetpath projectname cfilepath cfilename
            fnname cnode) = false
      ∧ atomic_write_discipline
          (get_pod_filename targetpath projectname cfilepath cfilename fnname)
          (save_pod_file_trace ux targetpath projectname cfilepath cfilename
            fnname cnode) = false
      ∧ atomic_write_discipline
          (get_cfile_interface_dictionaryname targetpath projectname
            cfilepath cfilename)
          (save_cfile_interface_dictionary_trace ux targetpath projectname
            cfilepath cfilename xnode) = false := by
  refine ⟨rfl, rfl, rfl, ?_, ?_, ?_⟩
  · simp [atomic_write_discipline, save_spo_file_trace]
  · simp [atomic_write_discipline, save_pod_file_trace]
  · simp [atomic_write_discipline, save_cfile_interface_dictionary_trace]

-- ---------------------------------------------------------------------------
-- Short-cut names (C8)
-- ---------------------------------------------------------------------------

/-- Embedding of Python name.count(sep) for a one-character
separator. -/
def py_count_char (s : PyStr) (sep : Char) : Nat :=
  s.countP (fun c => c == sep)

/-- Embedding of Python name.split(sep) for a one-character
separator. -/
def py_split_char (sep : Char) : PyStr → List PyStr
  | [] => [[]]
  | c :: cs =>
      if c == sep then [] :: py_split_char sep cs
      else
        match py_split_char sep cs with
        | [] => [[c]]
        | g :: gs => (c :: g) :: gs

/-- Embedding of is_shortcut_name.  Modelled from the spec: the value
of config.name_separator (chc/util/Config.py is not under src) is taken
as a parameter; the documented short-cut format is
group-name:project-name. -/
def is_shortcut_name (sep : Char) (name : PyStr) : Bool :=
  py_count_char name sep == 1

/-- Embedding of get_group_name. -/
def get_group_name (sep : Char) (name : PyStr) : Except CHCError PyStr :=
  if is_shortcut_name sep name then
    Except.ok ((py_split_char sep name).getD 0 [])
  else Except.error (CHCError.shortcutName name)

/-- Embedding of get_project_name. -/
def get_project_name (sep : Char) (name : PyStr) : Except CHCError PyStr :=
  if is_shortcut_name sep name then
    Except.ok ((py_split_char sep name).getD 1 [])
  else Except.error (CHCError.shortcutName name)

theorem py_split_char_no_sep (sep : Char) (s : PyStr)
    (h : py_count_char s sep = 0) : py_split_char sep s = [s] := by
  induction s with
  | nil => rfl
  | cons c cs ih =>
      simp only [py_count_char, List.countP_cons] at h ih
      cases hb : (c == sep) with
      | true => simp [hb] at h
      | false =>
          have hcs : List.countP (fun c => c == sep) cs = 0 := by
            rw [hb] at h
            simpa using h
          simp [py_split_char, hb, ih hcs]

theorem py_split_char_append (sep : Char) (g p : PyStr)
    (hg : py_count_char g sep = 0) :
    py_split_char sep (g ++ sep :: p) = g :: py_split_char sep p := by
  induction g with
  | nil => simp [py_split_char]
  | cons c cs ih =>
      simp only [py_count_char, List.countP_cons] at hg ih
      cases hb : (c == sep) with
      | true => simp [hb] at hg
      | false =>
          have hcs : List.countP (fun c => c == sep) cs = 0 := by
            rw [hb] at hg
            simpa using hg
          simp [py_split_char, hb, ih hcs]

theorem py_count_char_append_sep (sep : Char) (g p : PyStr)
    (hg : py_count_char g sep = 0) (hp : py_count_char p sep = 0) :
    py_count_char (g ++ sep :: p) sep = 1 := by
  simp only [py_count_char] at *
  rw [List.countP_append, List.countP_cons, hg, hp]
  simp

/-- C8: short-cut names round-trip: for a group name and a project name
that contain no separator, the name group ++ sep ++ project is a
short-cut name from which get_group_name and get_project_name recover
the two components; any name whose separator count is not exactly one
is not a short-cut name and both accessors raise
CHCShortCutNameError. -/
theorem shortcut_name_roundtrip (sep : Char) (g p : PyStr)
    (hg : py_count_char g sep = 0) (hp : py_count_char p sep = 0) :
    (is_shortcut_name sep (g ++ sep :: p) = true
        ∧ get_group_name sep (g ++ sep :: p) = Except.ok g
        ∧ get_project_name sep (g ++ sep :: p) = Except.ok p)
      ∧ ∀ name : PyStr, py_count_char name sep ≠ 1 →
          (is_shortcut_name sep name = false
            ∧ get_group_name sep name
              = Except.error (CHCError.shortcutName name)
            ∧ get_project_name sep name
              = Except.error (CHCError.shortcutName name)) := by
  have hcount := py_count_char_append_sep sep g p hg hp
  have hsplit := py_split_char_append sep g p hg
  have hsplitp := py_split_char_no_sep sep p hp
  refine ⟨⟨?_, ?_, ?_⟩, fun name hn => ⟨?_, ?_, ?_⟩⟩
  · simp [is_shortcut_name, hcount]
  · simp [get_group_name, is_shortcut_name, hcount, hsplit]
  · simp [get_project_name, is_shortcut_name, hcount, hsplit, hsplitp]
  · simp [is_shortcut_name, hn]
  · simp [get_group_name, is_shortcut_name, hn]
  · simp [get_project_name, is_shortcut_name, hn]

/-- Witness for C8 at a concrete group, project and non-short-cut
name. -/
theorem shortcut_name_roundtrip_witness :
    (is_shortcut_name ':' ("aa".data ++ ':' :: "bb".data) = true
        ∧ get_group_name ':' ("aa".data ++ ':' :: "bb".data)
          = Except.ok ("aa".data)
        ∧ get_project_name ':' ("aa".data ++ ':' :: "bb".data)
          = Except.ok ("bb".data))
      ∧ (is_shortcut_name ':' ("x".data) = false
        ∧ get_group_name ':' ("x".data)
          = Except.error (CHCError.shortcutName ("x".data))
        ∧ get_project_name ':' ("x".data)
          = Except.error (CHCError.shortcutName ("x".data))) := by
  have h := shortcut_name_roundtrip ':' ("aa".data) ("bb".data)
    (by decide) (by decide)
  exact ⟨h.1, h.2 ("x".data) (by decide)⟩

-- ---------------------------------------------------------------------------
-- Kendra test paths (C9)
-- ---------------------------------------------------------------------------

/-- Embedding of Python s.endswith(suf). -/
def py_endswith (s suf : PyStr) : Bool :=
  s.drop (s.length - suf.length) == suf

/-- Embedding of the Python slice s[2:-2]. -/
def py_slice_2_m2 (s : PyStr) : PyStr :=
  (s.drop 2).take ((s.drop 2).length - 2)

/-- Numeric value of a decimal digit character. -/
def py_digit_val (c : Char) : Nat := c.toNat - 48

/-- Embedding of Python int() restricted to plain decimal digit
strings (all kendra test file names use only these); any other string
raises ValueError. -/
def py_int? (l : PyStr) : Option Int :=
  if l ≠ [] ∧ l.all Char.isDigit then
    some (Int.ofNat (l.foldl (fun a c => 10 * a + py_digit_val c) 0))
  else none

/-- Modelled from the spec: the configuration record
(chc/util/Config.py is not under src); only the kendra test directory
is needed. -/
structure Config where
  kendradir : PyStr

/-- A snapshot of the directories on disk, as consulted by
os.path.isdir. -/
structure DirFS where
  isdir : PyStr → Bool

/-- Embedding of get_kendra_path. -/
def get_kendra_path (cfg : Config) : PyStr := cfg.kendradir

/-- Embedding of get_kendra_testpath. -/
def get_kendra_testpath (cfg : Config) (dfs : DirFS) (testname : PyStr) :
    Except CHCError PyStr :=
  let dirname := os_path_join (get_kendra_path cfg) testname
  if dfs.isdir dirname then Except.ok dirname
  else Except.error (CHCError.dirNotFound dirname)

/-- Embedding of get_kendra_testpath_byid: the test directory is named
id + str(testid) + Q. -/
def get_kendra_testpath_byid (cfg : Config) (dfs : DirFS) (testid : Int) :
    Except CHCError PyStr :=
  match get_kendra_testpath cfg dfs
      ("id".data ++ intRepr testid ++ "Q".data) with
  | Except.ok testpath =>
      if dfs.isdir testpath then Except.ok testpath
      else Except.error (CHCError.dirNotFound testpath)
  | Except.error e => Except.error e

/-- Embedding of get_kendra_cpath: for a name ending in .c, the id is
parsed from the slice [2:-2] and rounded down to the base of its group
of four; other names raise CHCFileNotFoundError. -/
def get_kendra_cpath (cfg : Config) (dfs : DirFS) (cfilename : PyStr) :
    Except CHCError PyStr :=
  if py_endswith cfilename (".c".data) then
    match py_int? (py_slice_2_m2 cfilename) with
    | some testid =>
        get_kendra_testpath_byid cfg dfs ((testid - 115).fdiv 4 * 4 + 115)
    | none => Except.error (CHCError.valueError (py_slice_2_m2 cfilename))
  else Except.error (CHCError.fileNotFound cfilename)

theorem py_endswith_append (pre suf : PyStr) :
    py_endswith (pre ++ suf) suf = true := by
  unfold py_endswith
  have hl : (pre ++ suf).length - suf.length = pre.length := by
    rw [List.length_append]
    omega
  rw [hl, List.drop_left]
  simp

theorem fdiv_ofNat (m n : Nat) :
    Int.fdiv (Int.ofNat m) (Int.ofNat n) = Int.ofNat (m / n) := by
  cases m with
  | zero => rw [Nat.zero_div]; rfl
  | succ m => rfl

/-- The test path lookup succeeds when the directory exists. -/
theorem get_kendra_testpath_ok (cfg : Config) (dfs : DirFS)
    (testname : PyStr)
    (h : dfs.isdir (os_path_join cfg.kendradir testname) = true) :
    get_kendra_testpath cfg dfs testname
      = Except.ok (os_path_join cfg.kendradir testname) := by
  unfold get_kendra_testpath get_kendra_path
  simp [h]

/-- The byid lookup succeeds and returns the joined directory when that
directory exists. -/
theorem get_kendra_testpath_byid_ok (cfg : Config) (dfs : DirFS)
    (testid : Int)
    (h : dfs.isdir (os_path_join cfg.kendradir
        ("id".data ++ intRepr testid ++ "Q".data)) = true) :
    get_kendra_testpath_byid cfg dfs testid
      = Except.ok (os_path_join cfg.kendradir
          ("id".data ++ intRepr testid ++ "Q".data)) := by
  have hok := get_kendra_testpath_ok cfg dfs
    ("id".data ++ intRepr testid ++ "Q".data) h
  unfold get_kendra_testpath_byid
  rw [hok]
  have h2 : dfs.isdir (os_path_join cfg.kendradir
      ('i' :: 'd' :: (intRepr testid ++ ['Q']))) = true := h
  simp [h2]

/-- C9: kendra test files are grouped four per test directory: the file
idN.c with N at least 115 resolves (when the directory exists) to the
test directory id M Q of the kendra directory, with
M = 115 + 4 * ((N - 115) / 4), so that M is at most N and N at most
M + 3; names not ending in .c raise CHCFileNotFoundError. -/
theorem get_kendra_cpath_grouping (cfg : Config) (dfs : DirFS) (ds : PyStr)
    (N : Nat) (hds : ds ≠ []) (hdig : ds.all Char.isDigit = true)
    (hval : ds.foldl (fun a c => 10 * a + py_digit_val c) 0 = N)
    (hN : 115 ≤ N) :
    (dfs.isdir (os_path_join cfg.kendradir
          ("id".data ++ natRepr ((N - 115) / 4 * 4 + 115) ++ "Q".data))
        = true →
      get_kendra_cpath cfg dfs ("id".data ++ ds ++ ".c".data)
        = Except.ok (os_path_join cfg.kendradir
            ("id".data ++ natRepr ((N - 115) / 4 * 4 + 115) ++ "Q".data)))
      ∧ (N - 115) / 4 * 4 + 115 ≤ N
      ∧ N ≤ (N - 115) / 4 * 4 + 115 + 3
      ∧ ∀ name : PyStr, py_endswith name (".c".data) = false →
          get_kendra_cpath cfg dfs name
            = Except.error (CHCError.fileNotFound name) := by
  have hsuf : py_endswith ("id".data ++ ds ++ ".c".data) (".c".data)
      = true := py_endswith_append ("id".data ++ ds) (".c".data)
  have hslice : py_slice_2_m2 ("id".data ++ ds ++ ".c".data) = ds := by
    show py_slice_2_m2 ('i' :: 'd' :: ds ++ ".c".data) = ds
    unfold py_slice_2_m2
    have h1 : ('i' :: 'd' :: ds ++ ".c".data).drop 2 = ds ++ ".c".data :=
      rfl
    rw [h1]
    have h2 : (ds ++ ".c".data).length - 2 = ds.length := by
      rw [List.length_append]
      have h3 : (".c".data).length = 2 := by decide
      omega
    rw [h2]
    exact List.take_left ds (".c".data)
  have hint : py_int? ds = some (Int.ofNat N) := by
    unfold py_int?
    rw [if_pos ⟨hds, hdig⟩, hval]
  have hbase : (Int.ofNat N - 115).fdiv 4 * 4 + 115
      = Int.ofNat ((N - 115) / 4 * 4 + 115) := by
    rw [show Int.ofNat N - 115 = Int.ofNat (N - 115) from by
        simp only [Int.ofNat_eq_natCast]; omega,
      show (4 : Int) = Int.ofNat 4 from rfl, fdiv_ofNat]
    simp only [Int.ofNat_eq_natCast]
    push_cast
    ring
  refine ⟨fun hdir => ?_, by omega, by omega, fun name hnc => ?_⟩
  · have hdir2 : dfs.isdir (os_path_join cfg.kendradir
        ("id".data ++ intRepr (Int.ofNat ((N - 115) / 4 * 4 + 115))
          ++ "Q".data)) = true := by
      rw [intRepr_ofNat]
      exact hdir
    have hstep : get_kendra_cpath cfg dfs ("id".data ++ ds ++ ".c".data)
        = get_kendra_testpath_byid cfg dfs
            ((Int.ofNat N - 115).fdiv 4 * 4 + 115) := by
      unfold get_kendra_cpath
      rw [hslice, hint, if_pos hsuf]
    rw [hstep, hbase, get_kendra_testpath_byid_ok cfg dfs
      (Int.ofNat ((N - 115) / 4 * 4 + 115)) hdir2, intRepr_ofNat]
  · unfold get_kendra_cpath
    simp [hnc]

/-- A concrete kendra configuration and directory layout for the
witness. -/
def cfgKendra : Config := ⟨"k".data⟩

/-- A directory snapshot in which only k/id115Q exists. -/
def dfsKendra : DirFS := ⟨fun d => d == "k/id115Q".data⟩

/-- Witness for C9: id115.c resolves to the test directory k/id115Q,
and a name not ending in .c raises CHCFileNotFoundError. -/
theorem get_kendra_cpath_grouping_witness :
    get_kendra_cpath cfgKendra dfsKendra
        ("id".data ++ "115".data ++ ".c".data)
      = Except.ok ("k/id115Q".data)
      ∧ get_kendra_cpath cfgKendra dfsKendra ("foo.txt".data)
        = Except.error (CHCError.fileNotFound ("foo.txt".data)) := by
  have h := get_kendra_cpath_grouping cfgKendra dfsKendra ("115".data) 115
    (by decide) (by decide) (by decide) (by decide)
  constructor
  · rw [h.1 (by decide)]
    rfl
  · exact h.2.2.2 ("foo.txt".data) (by decide)

-- ---------------------------------------------------------------------------
-- Type definition records (chc/app/CTypeInfo.py)
-- ---------------------------------------------------------------------------

/-- Modelled from the spec: a C type as resolved by the dictionary
(CTyp of chc/app/CTyp.py is not under src); only its str rendering is
needed. -/
structure CTyp where
  render : PyStr

/-- Modelled from the spec: the type dictionary resolves a type index
to a type (CDictionary is not under src). -/
structure CDictionary where
  get_typ : Nat → CTyp

/-- Modelled from the spec: the declarations object owning a record
gives access to the dictionary (CDeclarations is not under src). -/
structure CDeclarations where
  dictionary : CDictionary

/-- An interned table value: the index with the tag list and argument
index list of the record (spec section 3, Interned Record). -/
structure IndexedTableValue where
  index : Nat
  tags : List PyStr
  args : List Nat

/-- Embedding of class CTypeInfo: a declarations record over an
indexed-table value. -/
structure CTypeInfo where
  cdecls : CDeclarations
  ixval : IndexedTableValue

/-- The tags of the underlying record (from CDeclarationsRecord). -/
def CTypeInfo.tags (t : CTypeInfo) : List PyStr := t.ixval.tags

/-- The args of the underlying record (from CDeclarationsRecord). -/
def CTypeInfo.args (t : CTypeInfo) : List Nat := t.ixval.args

/-- The dictionary of the owning declarations (from
CDeclarationsRecord). -/
def CTypeInfo.dictionary (t : CTypeInfo) : CDictionary :=
  t.cdecls.dictionary

/-- Embedding of the property CTypeInfo.name: tags[0]. -/
def CTypeInfo.name (t : CTypeInfo) : PyStr := t.tags.getD 0 []

/-- Embedding of the property CTypeInfo.type: the type at index args[0]
of the dictionary. -/
def CTypeInfo.type (t : CTypeInfo) : CTyp :=
  t.dictionary.get_typ (t.args.getD 0 0)

/-- Embedding of CTypeInfo.__str__. -/
def CTypeInfo.toStr (t : CTypeInfo) : PyStr :=
  t.name ++ ":".data ++ t.type.render

/-- C6: a type-definition record pairs a name with a type index: its
name is the first tag of the record, its type is obtained by resolving
the first argument index in the associated type dictionary, and its
string rendering is the name followed by a colon and the rendering of
the type. -/
theorem ctypeinfo_record (t : CTypeInfo) (s : PyStr) (ts : List PyStr)
    (i : Nat) (js : List Nat) (htags : t.tags = s :: ts)
    (hargs : t.args = i :: js) :
    t.name = s ∧ t.type = t.dictionary.get_typ i
      ∧ t.toStr = s ++ ":".data ++ (t.dictionary.get_typ i).render := by
  have h1 : t.name = s := by simp [CTypeInfo.name, htags]
  have h2 : t.type = t.dictionary.get_typ i := by
    simp [CTypeInfo.type, hargs]
  exact ⟨h1, h2, by rw [CTypeInfo.toStr, h1, h2]⟩

/-- A sample type dictionary rendering index j as the string t
followed by the decimal digits of j. -/
def dictSample : CDictionary := ⟨fun j => ⟨'t' :: natRepr j⟩⟩

/-- A sample type-definition record named myint with type index 2. -/
def tinfoSample : CTypeInfo :=
  ⟨⟨dictSample⟩, ⟨0, ["myint".data], [2]⟩⟩

/-- Witness for C6 on the sample record. -/
theorem ctypeinfo_record_witness :
    tinfoSample.name = "myint".data
      ∧ tinfoSample.type = dictSample.get_typ 2
      ∧ tinfoSample.toStr = "myint:t2".data := by
  have h := ctypeinfo_record tinfoSample ("myint".data) [] 2 [] rfl rfl
  refine ⟨h.1, h.2.1, ?_⟩
  rw [h.2.2]
  decide

end CodeHawkC
